import Mathlib

set_option maxRecDepth 100000
set_option linter.unnecessarySeqFocus false

/-!
Verification of the signing-and-dispatch layer of the dydx-v3-python client.

The development shallowly embeds the three source files
`dydx3/modules/private.py`, `dydx3/helpers/requests.py` and
`dydx3/errors.py`.  Pure Python functions become Lean functions; the
machine-level primitives the source calls into (`hashlib.sha256`,
`hmac.new`, `base64.urlsafe_b64encode` / `urlsafe_b64decode`, UTF-8
encoding) are implemented bit-for-bit over `Nat` byte lists so that every
definition is executable and checkable on concrete inputs.  Helpers the
source imports from modules outside the embedded files
(`remove_nones`, `json_stringify`, `epoch_seconds_to_iso`,
`iso_to_epoch_seconds`, `get_transfer_erc20_fact`, the Signable* wrappers)
are modelled from the specification, as marked in their doc comments.
-/

namespace Dydx

/-- A JSON-like scalar value as it appears in the request-body mappings
built by `private.py`.  `jnull` models Python `None`. -/
inductive JVal where
  | jnull : JVal
  | str (s : String) : JVal
  | num (n : Int) : JVal
  | bool (b : Bool) : JVal
deriving DecidableEq, Repr

/-- A request body: an insertion-ordered mapping from field names to
values, as built literally by the dict displays in `private.py`. -/
abbrev JBody := List (String × JVal)

/-- Modelled from the spec: `remove_nones` (imported by `private.py` and
`requests.py` from `dydx3.helpers.request_helpers`, not itself part of the
embedded sources) drops every entry whose value is null, keeping the
remaining entries in order: "null fields removed", "null-valued entries
removed *before* serialization". -/
def remove_nones (data : JBody) : JBody :=
  data.filter (fun kv => kv.2 ≠ JVal.jnull)

/-- Render one scalar the way Python `json.dumps` renders it.  String
escaping is not modelled: the field values signed by this client are
plain identifiers, decimal strings and ISO timestamps. -/
def renderJVal : JVal → String
  | JVal.jnull => "null"
  | JVal.str s => "\"" ++ s ++ "\""
  | JVal.num n => toString n
  | JVal.bool b => if b then "true" else "false"

/-- Modelled from the spec: `json_stringify` (imported from
`dydx3.helpers.request_helpers`, i.e. `json.dumps`) serializes the
mapping with keys in insertion order — "canonical JSON-like serialization
of the body mapping ... key order in the serialization must match the
order fields were inserted".  The empty mapping serializes to the
two-character string rendered here as "\x7b\x7d". -/
def json_stringify (data : JBody) : String :=
  "\x7b"
    ++ String.intercalate ", "
        (data.map (fun kv => "\"" ++ kv.1 ++ "\": " ++ renderJVal kv.2))
    ++ "\x7d"

/-! ## Byte-level primitives

The source signs UTF-8 byte strings; bytes are `Nat`s below 256 and
32-bit words are `Nat`s reduced `% 2 ^ 32` where overflow matters. -/

/-- UTF-8 encoding of one character (RFC 3629), the byte sequence Python
`str.encode('utf-8')` produces for it. -/
def utf8EncodeCharNat (c : Char) : List Nat :=
  let n := c.toNat
  if n < 0x80 then [n]
  else if n < 0x800 then [0xC0 + n / 64, 0x80 + n % 64]
  else if n < 0x10000 then
    [0xE0 + n / 4096, 0x80 + (n / 64) % 64, 0x80 + n % 64]
  else
    [0xF0 + n / 262144, 0x80 + (n / 4096) % 64, 0x80 + (n / 64) % 64,
      0x80 + n % 64]

/-- UTF-8 bytes of a string, `s.encode('utf-8')` in the source. -/
def utf8Bytes (s : String) : List Nat :=
  s.data.flatMap utf8EncodeCharNat

/-- Rotate the 32-bit word `x` right by `n` bit positions, expressed
through division and remainder so it stays in plain `Nat` arithmetic. -/
def rotr32 (n x : Nat) : Nat :=
  (x / 2 ^ n + (x % 2 ^ n) * 2 ^ (32 - n)) % 2 ^ 32

/-- Bitwise complement of a 32-bit word. -/
def not32 (x : Nat) : Nat := Nat.xor x 0xFFFFFFFF

/-- SHA-256 round constants of FIPS 180-4 §4.2.2, written in decimal. -/
def sha256K : Array Nat := #[
  1116352408, 1899447441, 3049323471, 3921009573, 961987163, 1508970993,
  2453635748, 2870763221, 3624381080, 310598401, 607225278, 1426881987,
  1925078388, 2162078206, 2614888103, 3248222580, 3835390401, 4022224774,
  264347078, 604807628, 770255983, 1249150122, 1555081692, 1996064986,
  2554220882, 2821834349, 2952996808, 3210313671, 3336571891, 3584528711,
  113926993, 338241895, 666307205, 773529912, 1294757372, 1396182291,
  1695183700, 1986661051, 2177026350, 2456956037, 2730485921, 2820302411,
  3259730800, 3345764771, 3516065817, 3600352804, 4094571909, 275423344,
  430227734, 506948616, 659060556, 883997877, 958139571, 1322822218,
  1537002063, 1747873779, 1955562222, 2024104815, 2227730452, 2361852424,
  2428436474, 2756734187, 3204031479, 3329325298]

/-- SHA-256 initial hash value of FIPS 180-4 §5.3.3, in decimal. -/
def sha256H0 : List Nat := [
  1779033703, 3144134277, 1013904242, 2773480762,
  1359893119, 2600822924, 528734635, 1541459225]

/-- Big-endian eight-byte encoding of a length in bits. -/
def be64 (n : Nat) : List Nat :=
  [n / 2 ^ 56 % 256, n / 2 ^ 48 % 256, n / 2 ^ 40 % 256, n / 2 ^ 32 % 256,
    n / 2 ^ 24 % 256, n / 2 ^ 16 % 256, n / 2 ^ 8 % 256, n % 256]

/-- SHA-256 padding: a 0x80 byte, zeros to 56 mod 64, then the bit length. -/
def sha256Pad (msg : List Nat) : List Nat :=
  msg ++ [0x80] ++ List.replicate ((119 - msg.length % 64) % 64) 0
    ++ be64 (8 * msg.length)

/-- Split a byte list into 64-byte blocks, structurally recursing on a
fuel bound so the kernel can evaluate it. -/
def chunks64Fuel : Nat → List Nat → List (List Nat)
  | 0, _ => []
  | _, [] => []
  | fuel + 1, bs => bs.take 64 :: chunks64Fuel fuel (bs.drop 64)

/-- Split a byte list into 64-byte blocks. -/
def chunks64 (bs : List Nat) : List (List Nat) :=
  chunks64Fuel bs.length bs

/-- Four big-endian bytes at a time into 32-bit words. -/
def bytesToWords : List Nat → List Nat
  | b0 :: b1 :: b2 :: b3 :: rest =>
      (b0 * 2 ^ 24 + b1 * 2 ^ 16 + b2 * 2 ^ 8 + b3) :: bytesToWords rest
  | _ => []

/-- Message schedule: extend the 16 block words to 64 (FIPS 180-4 §6.2.2). -/
def sha256Schedule (block : List Nat) : Array Nat :=
  (List.range 48).foldl
    (fun w j =>
      let i := j + 16
      let w15 := w.getD (i - 15) 0
      let w2 := w.getD (i - 2) 0
      let s0 := Nat.xor (Nat.xor (rotr32 7 w15) (rotr32 18 w15)) (w15 / 2 ^ 3)
      let s1 := Nat.xor (Nat.xor (rotr32 17 w2) (rotr32 19 w2)) (w2 / 2 ^ 10)
      w.push ((w.getD (i - 16) 0 + s0 + w.getD (i - 7) 0 + s1) % 2 ^ 32))
    (bytesToWords block).toArray

/-- One SHA-256 compression round applied to the working variables. -/
def sha256Round (w : Array Nat) (st : List Nat) (j : Nat) : List Nat :=
  match st with
  | [a, b, c, d, e, f, g, h] =>
      let s1 := Nat.xor (Nat.xor (rotr32 6 e) (rotr32 11 e)) (rotr32 25 e)
      let ch := Nat.xor (Nat.land e f) (Nat.land (not32 e) g)
      let t1 := (h + s1 + ch + sha256K.getD j 0 + w.getD j 0) % 2 ^ 32
      let s0 := Nat.xor (Nat.xor (rotr32 2 a) (rotr32 13 a)) (rotr32 22 a)
      let mj := Nat.xor (Nat.xor (Nat.land a b) (Nat.land a c)) (Nat.land b c)
      let t2 := (s0 + mj) % 2 ^ 32
      [(t1 + t2) % 2 ^ 32, a, b, c, (d + t1) % 2 ^ 32, e, f, g]
  | other => other

/-- Compress one 64-byte block into the running hash (FIPS 180-4 §6.2.2). -/
def sha256Compress (hs : List Nat) (block : List Nat) : List Nat :=
  let w := sha256Schedule block
  let fin := (List.range 64).foldl (sha256Round w) hs
  (hs.zip fin).map (fun p => (p.1 + p.2) % 2 ^ 32)

/-- Words back to big-endian bytes. -/
def wordsToBytes (ws : List Nat) : List Nat :=
  ws.flatMap (fun x => [x / 2 ^ 24 % 256, x / 2 ^ 16 % 256, x / 2 ^ 8 % 256,
    x % 256])

/-- SHA-256 of a byte string, the digest `hashlib.sha256` computes. -/
def sha256 (msg : List Nat) : List Nat :=
  wordsToBytes ((chunks64 (sha256Pad msg)).foldl sha256Compress sha256H0)

/-- HMAC-SHA-256 (RFC 2104), the digest `hmac.new(key, msg,
digestmod=hashlib.sha256).digest()` computes. -/
def hmacSha256 (key msg : List Nat) : List Nat :=
  let k0 := if key.length > 64 then sha256 key else key
  let kp := k0 ++ List.replicate (64 - k0.length) 0
  sha256 ((kp.map (fun b => Nat.xor b 0x5c))
    ++ sha256 ((kp.map (fun b => Nat.xor b 0x36)) ++ msg))

/-- The base64 URL-safe alphabet (RFC 4648 §5). -/
def b64Alphabet : List Char :=
  ['A', 'B', 'C', 'D', 'E', 'F', 'G', 'H', 'I', 'J', 'K', 'L', 'M',
   'N', 'O', 'P', 'Q', 'R', 'S', 'T', 'U', 'V', 'W', 'X', 'Y', 'Z',
   'a', 'b', 'c', 'd', 'e', 'f', 'g', 'h', 'i', 'j', 'k', 'l', 'm',
   'n', 'o', 'p', 'q', 'r', 's', 't', 'u', 'v', 'w', 'x', 'y', 'z',
   '0', '1', '2', '3', '4', '5', '6', '7', '8', '9', '-', '_']

/-- Character for a 6-bit group. -/
def b64EncChar (n : Nat) : Char := b64Alphabet.getD n 'A'

/-- Value of one base64url character, none if outside the alphabet. -/
def b64Val (c : Char) : Option Nat :=
  let n := c.toNat
  if 65 ≤ n ∧ n ≤ 90 then some (n - 65)
  else if 97 ≤ n ∧ n ≤ 122 then some (n - 97 + 26)
  else if 48 ≤ n ∧ n ≤ 57 then some (n - 48 + 52)
  else if c = '-' then some 62
  else if c = '_' then some 63
  else none

/-- Base64url encoding of a byte list, as `base64.urlsafe_b64encode`
produces it (with `=` padding, which the source does not strip). -/
def base64urlEncode : List Nat → String
  | [] => ""
  | [x] =>
      String.mk [b64EncChar (x / 4), b64EncChar (x % 4 * 16), '=', '=']
  | [x, y] =>
      String.mk [b64EncChar (x / 4), b64EncChar (x % 4 * 16 + y / 16),
        b64EncChar (y % 16 * 4), '=']
  | x :: y :: z :: rest =>
      String.mk [b64EncChar (x / 4), b64EncChar (x % 4 * 16 + y / 16),
        b64EncChar (y % 16 * 4 + z / 64), b64EncChar (z % 64)]
      ++ base64urlEncode rest

/-- Decode base64url four characters at a time; `=` padding is allowed
only at the very end.  A malformed input yields `none`, where
`base64.urlsafe_b64decode` raises. -/
def b64DecodeGroups : List Char → Option (List Nat)
  | [] => some []
  | a :: b :: c :: d :: rest =>
      match b64Val a, b64Val b with
      | some va, some vb =>
          if d = '=' then
            if rest ≠ [] then none
            else if c = '=' then some [va * 4 + vb / 16]
            else
              match b64Val c with
              | some vc => some [va * 4 + vb / 16, vb % 16 * 16 + vc / 4]
              | none => none
          else
            match b64Val c, b64Val d, b64DecodeGroups rest with
            | some vc, some vd, some tail =>
                some ([va * 4 + vb / 16, vb % 16 * 16 + vc / 4,
                  vc % 4 * 64 + vd] ++ tail)
            | _, _, _ => none
      | _, _ => none
  | _ => none

/-- Base64url decoding of a string, `base64.urlsafe_b64decode` in the
source (`none` models the `binascii.Error` it raises on bad input). -/
def base64urlDecode (s : String) : Option (List Nat) :=
  b64DecodeGroups s.data

/-! ## Python runtime values and exception classes

`requests.py` returns whatever object `response.json()` parsed, or — in
the empty-body branch — a `str`.  The claims only need to distinguish a
string from a mapping, so parsed response data is modelled by `PyData`
with dictionary entries flattened to string values. -/

/-- A Python object delivered to the caller of the dispatcher: either a
`str` or a parsed mapping. -/
inductive PyData where
  | pyStr (s : String) : PyData
  | pyDict (entries : List (String × String)) : PyData
deriving DecidableEq, Repr

/-- The Python exception classes raised by the embedded sources, plus
their ancestors.  `ValueError` and `DydxError` subclass `Exception`;
`DydxApiError` subclasses `DydxError` (`errors.py`); transport errors
(`aiohttp`) also descend from `Exception`. -/
inductive PyClass where
  | object : PyClass
  | baseException : PyClass
  | exception : PyClass
  | valueError : PyClass
  | dydxError : PyClass
  | dydxApiError : PyClass
  | transportError : PyClass
deriving DecidableEq, Repr

/-- Method-resolution ancestors of each class, the class itself first. -/
def PyClass.ancestors : PyClass → List PyClass
  | object => [object]
  | baseException => [baseException, object]
  | exception => [exception, baseException, object]
  | valueError => [valueError, exception, baseException, object]
  | dydxError => [dydxError, exception, baseException, object]
  | dydxApiError => [dydxApiError, dydxError, exception, baseException, object]
  | transportError => [transportError, exception, baseException, object]

/-- An `except clause:` block catches a raised instance exactly when the
instance's class is the clause's class or one of its subclass ancestors. -/
def catches (clause raised : PyClass) : Bool :=
  (PyClass.ancestors raised).contains clause

/-- Every exception class of the embedding, for finite case checks. -/
def allPyClasses : List PyClass :=
  [PyClass.object, PyClass.baseException, PyClass.exception,
   PyClass.valueError, PyClass.dydxError, PyClass.dydxApiError,
   PyClass.transportError]

/-- An exception raised by the embedded code.  `valueError` is the
`raise ValueError(...)` of the expiration checks, `exception` the bare
`raise Exception(...)` of the missing-key checks, `dydxApiError` the
structured error of `errors.py` (carrying the HTTP status and the parsed
body on the left or the raw response text on the right), `jsonDecode`
the `ValueError` the JSON parser raises on a bad 2xx body, and
`transport` a connection/timeout failure from the transport. -/
inductive PyErr where
  | valueError (msg : String) : PyErr
  | exception (msg : String) : PyErr
  | dydxApiError (status : Nat) (msg : PyData ⊕ String) : PyErr
  | jsonDecode (raw : String) : PyErr
  | transport (msg : String) : PyErr
deriving DecidableEq, Repr

/-- The exact Python class of a raised exception
(`json.JSONDecodeError` subclasses `ValueError`). -/
def PyErr.cls : PyErr → PyClass
  | PyErr.valueError _ => PyClass.valueError
  | PyErr.exception _ => PyClass.exception
  | PyErr.dydxApiError _ _ => PyClass.dydxApiError
  | PyErr.jsonDecode _ => PyClass.valueError
  | PyErr.transport _ => PyClass.transportError

/-! ## The dispatcher (`dydx3/helpers/requests.py`)

The transport (`aiohttp`) and the JSON parser (`response.json()`) are
external collaborators (spec §1, §6): they enter the model as the
`sendResult` input and the `parse` parameter.  `parse s = none` models
the `ValueError` that structured parsing raises on `s`. -/

/-- An HTTP response as the dispatcher sees it: the status code and the
raw body text (`response.content` truthy exactly when non-empty). -/
structure HttpResponse where
  status : Nat
  content : String
deriving DecidableEq, Repr

/-- What happened to sessions during one dispatched call.
`tempCreated`: the `session is None` branch ran `aiohttp.ClientSession()`.
`closeCoroutineCreated`: the `finally` block evaluated
`temp_session.close()`, creating the close coroutine.
`sessionClosed`: that coroutine actually ran.  `ClientSession.close` is a
coroutine function — `private.py` line 65 must `await self._session.close()`
— and `requests.py` line 65 evaluates it without `await`, so the coroutine
is never scheduled and the session is not closed.
`callerSessionClosed`: the dispatcher closed a caller-supplied session
(no code path does). -/
structure SessionLog where
  tempCreated : Bool
  closeCoroutineCreated : Bool
  sessionClosed : Bool
  callerSessionClosed : Bool
deriving DecidableEq, Repr

/-- Everything one call of `request` produces: the value returned or the
exception propagated, the serialized body string handed to the transport
(`data=json.dumps(remove_nones(data_values))`, requests.py lines 47-49),
and the session lifecycle log. -/
structure RequestOutcome where
  result : Except PyErr PyData
  transmitted : String
  log : SessionLog
deriving Repr

/-- The classification test `str(response.status).startswith('2')`
(requests.py line 53): the decimal representation of the status starts
with the digit 2, i.e. its first character is '2' (the representation is
never empty). -/
def statusStartsWith2 (status : Nat) : Bool :=
  (toString status).data.head? = some '2'

/-- Embeds `response_to_error` (requests.py lines 83-98, identical copy
in errors.py): best-effort parse of the body, falling back to the raw
text when parsing raises, wrapped with the status into `DydxApiError`. -/
def response_to_error (parse : String → Option PyData) (resp : HttpResponse) :
    PyErr :=
  PyErr.dydxApiError resp.status
    (match parse resp.content with
     | some j => Sum.inl j
     | none => Sum.inr resp.content)

/-- Embeds `request` (requests.py lines 14-65).  `callerSession` is true
when the caller passed a session (`session is not None`); `sendResult`
is what the transport did (`Except.error` models `send_request` raising).
The `finally` block runs on every path, so the session log does not
depend on the branch taken; the un-awaited `temp_session.close()` leaves
`sessionClosed` false (see `SessionLog`). -/
def request (parse : String → Option PyData) (callerSession : Bool)
    (data_values : JBody) (sendResult : Except String HttpResponse) :
    RequestOutcome :=
  let result : Except PyErr PyData :=
    match sendResult with
    | Except.error t => Except.error (PyErr.transport t)
    | Except.ok resp =>
        if ¬ statusStartsWith2 resp.status then
          Except.error (response_to_error parse resp)
        else if resp.content ≠ "" then
          match parse resp.content with
          | some j => Except.ok j
          | none => Except.error (PyErr.jsonDecode resp.content)
        else
          Except.ok (PyData.pyStr "\x7b\x7d")
  { result := result
    transmitted := json_stringify (remove_nones data_values)
    log :=
      { tempCreated := !callerSession
        closeCoroutineCreated := !callerSession
        sessionClosed := false
        callerSessionClosed := false } }

/-! ## Python truthiness

`private.py` tests optional arguments with `or` and with `bool(...)`,
which is truthiness, not `is None`: an empty string and the integer 0
count as absent. -/

/-- Truthiness of an optional string argument. -/
def truthyStr : Option String → Bool
  | none => false
  | some s => !s.isEmpty

/-- Truthiness of an optional integer argument. -/
def truthyInt : Option Int → Bool
  | none => false
  | some n => n != 0

/-- Python `a or b` for an optional string `a` and string `b`. -/
def pyOrStr (a : Option String) (b : String) : String :=
  if truthyStr a then a.getD "" else b

/-- Python `str.upper()` for the ASCII method names the client uses
(structural character map, so the kernel can evaluate it). -/
def pyUpper (s : String) : String := String.mk (s.data.map Char.toUpper)

/-- Python `str.lower()` for the ASCII hex addresses the client uses. -/
def pyLower (s : String) : String := String.mk (s.data.map Char.toLower)

/-! ## Calendar conversion helpers

`epoch_seconds_to_iso` and `iso_to_epoch_seconds` are imported by
`private.py` from `dydx3.helpers.request_helpers`, which is not among
the embedded sources; both are modelled from the spec: "timestamp →
epoch seconds via UTC calendar conversion at second granularity, and
vice versa" (spec §4.3), ISO-8601 at second precision (spec §3).
The proleptic-Gregorian conversion uses the standard civil-from-days
arithmetic. -/

/-- Year, month, day of a nonnegative count of days since 1970-01-01. -/
def civilFromDays (days : Nat) : Nat × Nat × Nat :=
  let z := days + 719468
  let era := z / 146097
  let doe := z % 146097
  let yoe := (doe - doe / 1460 + doe / 36524 - doe / 146096) / 365
  let y := yoe + era * 400
  let doy := doe - (365 * yoe + yoe / 4 - yoe / 100)
  let mp := (5 * doy + 2) / 153
  let d := doy - (153 * mp + 2) / 5 + 1
  let m := if mp < 10 then mp + 3 else mp - 9
  (if m ≤ 2 then y + 1 else y, m, d)

/-- Days since 1970-01-01 of a Gregorian date (on or after 1970). -/
def daysFromCivil (y m d : Nat) : Nat :=
  let y' := if m ≤ 2 then y - 1 else y
  let era := y' / 400
  let yoe := y' % 400
  let doy := (153 * (if 2 < m then m - 3 else m + 9) + 2) / 5 + d - 1
  let doe := yoe * 365 + yoe / 4 - yoe / 100 + doy
  era * 146097 + doe - 719468

/-- Decimal rendering padded to two digits. -/
def pad2 (n : Nat) : String :=
  if n < 10 then "0" ++ toString n else toString n

/-- Decimal rendering padded to four digits. -/
def pad4 (n : Nat) : String :=
  if n < 10 then "000" ++ toString n
  else if n < 100 then "00" ++ toString n
  else if n < 1000 then "0" ++ toString n
  else toString n

/-- Modelled from the spec: `epoch_seconds_to_iso` — UTC calendar
conversion of a nonnegative epoch-second count to an ISO-8601 timestamp
at second granularity (rendered with the `.000Z` millisecond suffix the
client uses). -/
def epoch_seconds_to_iso (n : Int) : String :=
  let s := n.toNat
  let (y, m, d) := civilFromDays (s / 86400)
  let rem := s % 86400
  pad4 y ++ "-" ++ pad2 m ++ "-" ++ pad2 d ++ "T" ++ pad2 (rem / 3600)
    ++ ":" ++ pad2 (rem % 3600 / 60) ++ ":" ++ pad2 (rem % 60) ++ ".000Z"

/-- Modelled from the spec: `iso_to_epoch_seconds` — UTC calendar
conversion of an ISO-8601 timestamp (fixed-position fields
`YYYY-MM-DDTHH:MM:SS...`) back to epoch seconds at second granularity. -/
def iso_to_epoch_seconds (s : String) : Int :=
  let num (i len : Nat) : Nat :=
    ((s.data.drop i).take len).foldl (fun a c => a * 10 + (c.toNat - 48)) 0
  (daysFromCivil (num 0 4) (num 5 2) (num 8 2) * 86400
    + num 11 2 * 3600 + num 14 2 * 60 + num 17 2 : Nat)

/-! ## The asymmetric signing layer (`dydx3/modules/private.py`)

The Signable* wrappers and the curve primitive they call
(`dydx3.starkex`) are external collaborators (spec §1): "Consumed here
only through the contract `sign(message_inputs, private_key) ->
signature_bytes`".  The embedding records the exact ordered field set
each action hands to that primitive and takes the primitive itself as a
function parameter. -/

/-- The ordered field set `create_order` passes to `SignableOrder`
(private.py lines 577-587). -/
structure OrderToSign where
  network_id : Nat
  position_id : Int
  client_id : String
  market : String
  side : String
  human_size : String
  human_price : String
  limit_fee : String
  expiration_epoch_seconds : Int
deriving DecidableEq, Repr

/-- The ordered field set `create_withdrawal` passes to
`SignableWithdrawal` (private.py lines 833-839). -/
structure WithdrawalToSign where
  network_id : Nat
  position_id : Int
  client_id : String
  human_amount : String
  expiration_epoch_seconds : Int
deriving DecidableEq, Repr

/-- Modelled from the spec: the conditional-transfer "fact", "derived
from \x7brecipient address (lower-cased), token contract address, token
decimal count, human amount, salt-from-client-id\x7d" (spec §4.1); kept
as the commitment's content rather than its hash, which preserves
exactly the identifications the hash makes. -/
structure TransferFact where
  recipient : String
  token_decimals : Nat
  human_amount : String
  token_address : String
  salt : Nat
deriving DecidableEq, Repr

/-- Modelled from the spec: `nonce_from_client_id` — the
"salt-from-client-id" (spec §4.1), a deterministic token derived from
the client id (the implementation hashes the id and reduces it). -/
def nonce_from_client_id (client_id : String) : Nat :=
  ((sha256 (utf8Bytes client_id)).foldl (fun a b => a * 256 + b) 0) % 2 ^ 32

/-- Modelled from the spec: `get_transfer_erc20_fact` — builds the fact
from the recipient address lower-cased, the token contract address, the
token decimal count, the human amount and the salt (spec §4.1: "this
fact must be computed identically on sign and on any later
verification"). -/
def get_transfer_erc20_fact (recipient : String) (token_decimals : Nat)
    (human_amount : String) (token_address : String) (salt : Nat) :
    TransferFact :=
  { recipient := pyLower recipient
    token_decimals := token_decimals
    human_amount := human_amount
    token_address := token_address
    salt := salt }

/-- The ordered field set `create_fast_withdrawal` passes to
`SignableConditionalTransfer` (private.py lines 940-950). -/
structure ConditionalTransferToSign where
  network_id : Nat
  sender_position_id : Int
  receiver_position_id : Int
  receiver_public_key : String
  fact_registry_address : String
  fact : TransferFact
  human_amount : String
  client_id : String
  expiration_epoch_seconds : Int
deriving DecidableEq, Repr

/-- Modelled constant: `COLLATERAL_TOKEN_DECIMALS` from
`dydx3.constants` (the collateral token's decimal count, spec §4.1
"token decimal count"). -/
def COLLATERAL_TOKEN_DECIMALS : Nat := 6

/-- Modelled constant table: `TOKEN_CONTRACTS[COLLATERAL_ASSET]` from
`dydx3.constants` — the collateral token's contract address per network.
Its concrete value is irrelevant to every claim; the model only keeps it
a deterministic function of the network id. -/
def collateralTokenContract (network_id : Nat) : String :=
  "collateral-token-contract-" ++ toString network_id

/-- Modelled constant table: `FACT_REGISTRY_CONTRACT` from
`dydx3.constants` — the fact registry address per network. -/
def FACT_REGISTRY_CONTRACT (network_id : Nat) : String :=
  "fact-registry-contract-" ++ toString network_id

/-- Python `None`-or-string dict value. -/
def optStr : Option String → JVal
  | some s => JVal.str s
  | none => JVal.jnull

/-- Python `None`-or-bool dict value. -/
def optBool : Option Bool → JVal
  | some b => JVal.bool b
  | none => JVal.jnull

/-- The message the `ValueError` of the expiration checks carries
(private.py lines 558-562, 815-819, 913-917). -/
def expirationErrMsg : String :=
  "Exactly one of expiration and expiration_epoch_seconds must be specified"

/-- What `create_order` produces short of the dispatch: the dict it
posts to `/v3/orders` (insertion order of private.py lines 590-606) and,
when it signed locally, the field set handed to the curve primitive. -/
structure OrderOutcome where
  payload : JBody
  signed : Option OrderToSign
deriving DecidableEq, Repr

/-- Embeds `create_order` (private.py lines 442-611) up to the dispatch.
`starkSign` is the external curve primitive bound to the present private
key, `fresh_client_id` the token `random_client_id()` would generate. -/
def create_order (starkSign : OrderToSign → String)
    (stark_private_key : Option String) (network_id : Nat)
    (fresh_client_id : String) (position_id : Int)
    (market side order_type : String) (post_only : Bool)
    (size price limit_fee : String)
    (time_in_force cancel_id trigger_price trailing_percent : Option String)
    (client_id expiration : Option String)
    (expiration_epoch_seconds : Option Int) (signature : Option String)
    (reduce_only : Option Bool) : Except PyErr OrderOutcome :=
  let client_id := pyOrStr client_id fresh_client_id
  if truthyStr expiration = truthyInt expiration_epoch_seconds then
    Except.error (PyErr.valueError expirationErrMsg)
  else
    let expirationIso :=
      pyOrStr expiration
        (epoch_seconds_to_iso (expiration_epoch_seconds.getD 0))
    let expirationEpoch :=
      if truthyInt expiration_epoch_seconds then
        expiration_epoch_seconds.getD 0
      else iso_to_epoch_seconds expirationIso
    let signedStep : Except PyErr (String × Option OrderToSign) :=
      if truthyStr signature then Except.ok (signature.getD "", none)
      else if ¬ truthyStr stark_private_key then
        Except.error (PyErr.exception
          ("No signature provided and client was not "
            ++ "initialized with stark_private_key"))
      else
        let fields : OrderToSign :=
          { network_id := network_id
            position_id := position_id
            client_id := client_id
            market := market
            side := side
            human_size := size
            human_price := price
            limit_fee := limit_fee
            expiration_epoch_seconds := expirationEpoch }
        Except.ok (starkSign fields, some fields)
    match signedStep with
    | Except.error e => Except.error e
    | Except.ok (order_signature, signed) =>
        Except.ok
          { payload := [
              ("market", JVal.str market),
              ("side", JVal.str side),
              ("type", JVal.str order_type),
              ("timeInForce", JVal.str (pyOrStr time_in_force "GTT")),
              ("size", JVal.str size),
              ("price", JVal.str price),
              ("limitFee", JVal.str limit_fee),
              ("expiration", JVal.str expirationIso),
              ("cancelId", optStr cancel_id),
              ("triggerPrice", optStr trigger_price),
              ("trailingPercent", optStr trailing_percent),
              ("postOnly", JVal.bool post_only),
              ("clientId", JVal.str client_id),
              ("signature", JVal.str order_signature),
              ("reduceOnly", optBool reduce_only)]
            signed := signed }

/-- What `create_withdrawal` produces short of the dispatch: the dict it
posts to `/v3/withdrawals` (private.py lines 842-848) and the field set
handed to the curve primitive when it signed locally. -/
structure WithdrawalOutcome where
  payload : JBody
  signed : Option WithdrawalToSign
deriving DecidableEq, Repr

/-- Embeds `create_withdrawal` (private.py lines 766-849) up to the
dispatch.  The `to_address` parameter exists in the source and is
likewise unused by its body. -/
def create_withdrawal (starkSign : WithdrawalToSign → String)
    (stark_private_key : Option String) (network_id : Nat)
    (fresh_client_id : String) (position_id : Int)
    (amount asset _to_address : String) (client_id expiration : Option String)
    (expiration_epoch_seconds : Option Int) (signature : Option String) :
    Except PyErr WithdrawalOutcome :=
  let client_id := pyOrStr client_id fresh_client_id
  if truthyStr expiration = truthyInt expiration_epoch_seconds then
    Except.error (PyErr.valueError expirationErrMsg)
  else
    let expirationIso :=
      pyOrStr expiration
        (epoch_seconds_to_iso (expiration_epoch_seconds.getD 0))
    let expirationEpoch :=
      if truthyInt expiration_epoch_seconds then
        expiration_epoch_seconds.getD 0
      else iso_to_epoch_seconds expirationIso
    let signedStep : Except PyErr (String × Option WithdrawalToSign) :=
      if truthyStr signature then Except.ok (signature.getD "", none)
      else if ¬ truthyStr stark_private_key then
        Except.error (PyErr.exception
          ("No signature provided and client was not"
            ++ "initialized with stark_private_key"))
      else
        let fields : WithdrawalToSign :=
          { network_id := network_id
            position_id := position_id
            client_id := client_id
            human_amount := amount
            expiration_epoch_seconds := expirationEpoch }
        Except.ok (starkSign fields, some fields)
    match signedStep with
    | Except.error e => Except.error e
    | Except.ok (sig, signed) =>
        Except.ok
          { payload := [
              ("amount", JVal.str amount),
              ("asset", JVal.str asset),
              ("expiration", JVal.str expirationIso),
              ("clientId", JVal.str client_id),
              ("signature", JVal.str sig)]
            signed := signed }

/-- What `create_fast_withdrawal` produces short of the dispatch: the
dict it posts to `/v3/fast-withdrawals` (private.py lines 953-964) and
the conditional-transfer field set (including the derived fact) handed
to the curve primitive when it signed locally. -/
structure FastWithdrawalOutcome where
  payload : JBody
  signed : Option ConditionalTransferToSign
deriving DecidableEq, Repr

/-- Embeds `create_fast_withdrawal` (private.py lines 851-965) up to the
dispatch.  The fact is derived with `get_transfer_erc20_fact` from the
recipient, the collateral token contract and decimals, the credit
amount, and the salt from the client id (lines 931-939); the posted
`toAddress` is lower-cased (line 959). -/
def create_fast_withdrawal (starkSign : ConditionalTransferToSign → String)
    (stark_private_key : Option String) (network_id : Nat)
    (fresh_client_id : String) (position_id : Int)
    (credit_asset credit_amount debit_amount to_address : String)
    (lp_position_id : Int) (lp_stark_public_key : String)
    (slippage_tolerance : Option String)
    (client_id expiration : Option String)
    (expiration_epoch_seconds : Option Int) (signature : Option String) :
    Except PyErr FastWithdrawalOutcome :=
  let client_id := pyOrStr client_id fresh_client_id
  if truthyStr expiration = truthyInt expiration_epoch_seconds then
    Except.error (PyErr.valueError expirationErrMsg)
  else
    let expirationIso :=
      pyOrStr expiration
        (epoch_seconds_to_iso (expiration_epoch_seconds.getD 0))
    let expirationEpoch :=
      if truthyInt expiration_epoch_seconds then
        expiration_epoch_seconds.getD 0
      else iso_to_epoch_seconds expirationIso
    let signedStep : Except PyErr (String × Option ConditionalTransferToSign) :=
      if truthyStr signature then Except.ok (signature.getD "", none)
      else if ¬ truthyStr stark_private_key then
        Except.error (PyErr.exception
          ("No signature provided and client was not"
            ++ "initialized with stark_private_key"))
      else
        let fact := get_transfer_erc20_fact to_address
          COLLATERAL_TOKEN_DECIMALS credit_amount
          (collateralTokenContract network_id)
          (nonce_from_client_id client_id)
        let fields : ConditionalTransferToSign :=
          { network_id := network_id
            sender_position_id := position_id
            receiver_position_id := lp_position_id
            receiver_public_key := lp_stark_public_key
            fact_registry_address := FACT_REGISTRY_CONTRACT network_id
            fact := fact
            human_amount := debit_amount
            client_id := client_id
            expiration_epoch_seconds := expirationEpoch }
        Except.ok (starkSign fields, some fields)
    match signedStep with
    | Except.error e => Except.error e
    | Except.ok (sig, signed) =>
        Except.ok
          { payload := [
              ("creditAsset", JVal.str credit_asset),
              ("creditAmount", JVal.str credit_amount),
              ("debitAmount", JVal.str debit_amount),
              ("slippageTolerance", optStr slippage_tolerance),
              ("toAddress", JVal.str (pyLower to_address)),
              ("lpPositionId", JVal.num lp_position_id),
              ("expiration", JVal.str expirationIso),
              ("clientId", JVal.str client_id),
              ("signature", JVal.str sig)]
            signed := signed }

/-! ## The symmetric request authenticator (`Private.sign` and
`Private._private_request`) -/

/-- The signing string of `Private.sign` (private.py lines 1145-1150):
timestamp, then method, then path, then the serialized body — the empty
string rather than the serialized empty mapping when the body is
empty (`json_stringify(data) if data else ''`). -/
def signMessage (request_path method iso_timestamp : String)
    (data : JBody) : String :=
  iso_timestamp ++ method ++ request_path
    ++ (if data.isEmpty then "" else json_stringify data)

/-- Embeds `Private.sign` (private.py lines 1138-1159): base64url-decode
the api secret (`none` models the exception a malformed secret raises),
HMAC-SHA-256 the UTF-8 bytes of the signing string with the decoded
secret as key, and base64url-encode the digest. -/
def Private.sign (secret : String) (request_path method iso_timestamp : String)
    (data : JBody) : Option String :=
  (base64urlDecode secret).map fun key =>
    base64urlEncode
      (hmacSha256 key
        (utf8Bytes (signMessage request_path method iso_timestamp data)))

/-- The request path `_private_request` builds
(`'/'.join(['/v3', endpoint])`, private.py line 76). -/
def requestPathOf (endpoint : String) : String := "/v3/" ++ endpoint

/-- The signature `_private_request` attaches (private.py lines 77-82):
`Private.sign` at the uppercased method and the null-stripped data. -/
def private_request_signature (secret now_iso method endpoint : String)
    (data : JBody) : Option String :=
  Private.sign secret (requestPathOf endpoint) (pyUpper method) now_iso
    (remove_nones data)

/-- The serialized-body segment of the signing string a private request
is authenticated over: empty when the null-stripped body is empty, its
serialization otherwise. -/
def signedBodySegment (data : JBody) : String :=
  if (remove_nones data).isEmpty then ""
  else json_stringify (remove_nones data)

/-! ## Sanity checks of the primitive embeddings

Pinned test vectors, checked by kernel evaluation: FIPS 180-4 / standard
SHA-256 vectors, and the spec §8 fixed example evaluated end to end
(secret bytes = base64url-decode of "c2VjcmV0"). -/

/-- SHA-256 of "abc" (FIPS 180-4 test vector). -/
theorem sha256_vector_abc :
    sha256 (utf8Bytes "abc") = [186, 120, 22, 191, 143, 1, 207, 234, 65, 65,
      64, 222, 93, 174, 34, 35, 176, 3, 97, 163, 150, 23, 122, 156, 180, 16,
      255, 97, 242, 0, 21, 173] := by decide

/-- SHA-256 of the empty message (standard vector). -/
theorem sha256_vector_empty :
    sha256 [] = [227, 176, 196, 66, 152, 252, 28, 20, 154, 251, 244, 200,
      153, 111, 185, 36, 39, 174, 65, 228, 100, 155, 147, 76, 164, 149, 153,
      27, 120, 82, 184, 85] := by decide

/-- The spec §8 fixed example, end to end through `Private.sign`: the
secret "c2VjcmV0" (decoding to the bytes of "secret") over the message
"2023-01-01T00:00:00.000ZGET/v3/accounts" pins this exact signature
(value computed with the reference HMAC-SHA-256). -/
theorem private_sign_pinned_example :
    Private.sign "c2VjcmV0" "/v3/accounts" "GET" "2023-01-01T00:00:00.000Z"
      [] = some "lA0lHT48YTGGbxkDAUZGvSy19zwvtVgyk3Q7gEuc-Vg=" := by decide

/-! ## The claims -/

/-- C1: for every credential set and request whose api secret base64url-
decodes to `key` and whose method is already uppercased (as
`_private_request` always passes it), `Private.sign(request_path, method,
iso_timestamp, data)` equals the base64url encoding of the HMAC-SHA-256
digest, keyed by the decoded secret, of the UTF-8 bytes of the
concatenation timestamp ++ uppercased method ++ path ++ serialized-body
— in particular a pure, deterministic function of (secret, timestamp,
method, path, body). -/
theorem sign_is_b64url_hmac_of_canonical_message
    (secret request_path method iso_timestamp : String) (data : JBody)
    (key : List Nat) (hsecret : base64urlDecode secret = some key)
    (hmethod : pyUpper method = method) :
    Private.sign secret request_path method iso_timestamp data
      = some (base64urlEncode (hmacSha256 key (utf8Bytes
          (iso_timestamp ++ pyUpper method ++ request_path
            ++ (if data.isEmpty then "" else json_stringify data))))) := by
  rw [Private.sign, hsecret, hmethod]
  rfl

/-- Witness for C1 at the spec §8 fixed example. -/
theorem sign_is_b64url_hmac_of_canonical_message_witness :
    Private.sign "c2VjcmV0" "/v3/accounts" "GET" "2023-01-01T00:00:00.000Z"
      []
      = some (base64urlEncode (hmacSha256 [115, 101, 99, 114, 101, 116]
          (utf8Bytes ("2023-01-01T00:00:00.000Z" ++ pyUpper "GET"
            ++ "/v3/accounts"
            ++ (if ([] : JBody).isEmpty then ""
                else json_stringify []))))) :=
  sign_is_b64url_hmac_of_canonical_message "c2VjcmV0" "/v3/accounts" "GET"
    "2023-01-01T00:00:00.000Z" [] [115, 101, 99, 114, 101, 116]
    (by decide) (by decide)

/-- C2: the private-request pipeline strips null-valued entries before
serialization, so the signature over a body with null-valued fields
equals the signature over the same body with those fields absent; and
for the empty body the serialized-body segment of the signing string is
the empty string, not the serialized empty mapping. -/
theorem null_fields_never_signed_and_empty_body_is_empty_segment
    (secret now_iso method endpoint : String) (data : JBody) :
    private_request_signature secret now_iso method endpoint data
      = private_request_signature secret now_iso method endpoint
          (data.filter fun kv => kv.2 ≠ JVal.jnull)
    ∧ (data = [] →
        signedBodySegment data = "" ∧ signedBodySegment data ≠ "\x7b\x7d") := by
  constructor
  · have hrn : remove_nones (data.filter fun kv => kv.2 ≠ JVal.jnull)
        = remove_nones data := by
      simp [remove_nones, List.filter_filter]
    rw [private_request_signature, private_request_signature, hrn]
  · intro h
    subst h
    exact ⟨rfl, by decide⟩

/-- Witness for C2 at the spec §8 example body
with fields a = 1, b = null, c = "x". -/
theorem null_fields_never_signed_witness :
    private_request_signature "c2VjcmV0" "2023-01-01T00:00:00.000Z" "post"
      "accounts"
      [("a", JVal.num 1), ("b", JVal.jnull), ("c", JVal.str "x")]
      = private_request_signature "c2VjcmV0" "2023-01-01T00:00:00.000Z"
          "post" "accounts" [("a", JVal.num 1), ("c", JVal.str "x")]
    ∧ signedBodySegment ([] : JBody) = "" := by
  constructor
  · exact (null_fields_never_signed_and_empty_body_is_empty_segment
      "c2VjcmV0" "2023-01-01T00:00:00.000Z" "post" "accounts"
      [("a", JVal.num 1), ("b", JVal.jnull), ("c", JVal.str "x")]).1
  · exact ((null_fields_never_signed_and_empty_body_is_empty_segment
      "c2VjcmV0" "2023-01-01T00:00:00.000Z" "post" "accounts"
      ([] : JBody)).2 rfl).1

/-- C3 counterexample: with `expiration_epoch_seconds = 0` — a
syntactically valid epoch value — and no ISO expiration, exactly one
representation is supplied, yet `create_order` raises the
exactly-one-expiration `ValueError` instead of deriving the other
representation and proceeding, because the check tests truthiness and
`bool(0)` is false. -/
theorem create_order_rejects_zero_epoch :
    create_order (fun _ => "stark-sig") (some "key") 1 "fresh-cid" 1
      "BTC-USD" "BUY" "LIMIT" false "1" "100" "0.01" none none none none
      none none (some 0) none none
      = Except.error (PyErr.valueError expirationErrMsg) := rfl

/-- C3 (amended): for `create_order`, `create_withdrawal` and
`create_fast_withdrawal` — if the two expiration forms are both truthy
or both falsy (`None`, the empty string, or the epoch value 0), the call
fails with the exactly-one-expiration `ValueError` before any signing
attempt (for every signer) or network dispatch; if exactly one form is
truthy, the other is derived from it deterministically by the repo's
converters, the ISO form is carried in the request payload and the epoch
form in every field set handed to the signing primitive. -/
theorem exactly_one_truthy_expiration_or_error
    (oSign : OrderToSign → String) (wSign : WithdrawalToSign → String)
    (cSign : ConditionalTransferToSign → String)
    (spk : Option String) (nid : Nat) (fresh : String) (pos : Int)
    (market side order_type : String) (post_only : Bool)
    (size price limit_fee : String)
    (tif cncl tp tr : Option String)
    (amount asset w_addr : String)
    (credit_asset credit_amount debit_amount fw_addr : String)
    (lp_pos : Int) (lp_pk : String) (st : Option String)
    (client_id expiration : Option String) (eps : Option Int)
    (signature : Option String) (reduce_only : Option Bool)
    (expIso : String) (expEpoch : Int)
    (hIso : expIso = pyOrStr expiration (epoch_seconds_to_iso (eps.getD 0)))
    (hEpoch : expEpoch = if truthyInt eps then eps.getD 0
        else iso_to_epoch_seconds expIso) :
    (truthyStr expiration = truthyInt eps →
      create_order oSign spk nid fresh pos market side order_type post_only
          size price limit_fee tif cncl tp tr client_id expiration eps
          signature reduce_only
        = Except.error (PyErr.valueError expirationErrMsg)
      ∧ create_withdrawal wSign spk nid fresh pos amount asset w_addr
          client_id expiration eps signature
        = Except.error (PyErr.valueError expirationErrMsg)
      ∧ create_fast_withdrawal cSign spk nid fresh pos credit_asset
          credit_amount debit_amount fw_addr lp_pos lp_pk st client_id
          expiration eps signature
        = Except.error (PyErr.valueError expirationErrMsg))
    ∧ (truthyStr expiration ≠ truthyInt eps →
      (∀ o, create_order oSign spk nid fresh pos market side order_type
          post_only size price limit_fee tif cncl tp tr client_id
          expiration eps signature reduce_only = Except.ok o →
        ("expiration", JVal.str expIso) ∈ o.payload
        ∧ ∀ f, o.signed = some f → f.expiration_epoch_seconds = expEpoch)
      ∧ (∀ o, create_withdrawal wSign spk nid fresh pos amount asset w_addr
          client_id expiration eps signature = Except.ok o →
        ("expiration", JVal.str expIso) ∈ o.payload
        ∧ ∀ f, o.signed = some f → f.expiration_epoch_seconds = expEpoch)
      ∧ (∀ o, create_fast_withdrawal cSign spk nid fresh pos credit_asset
          credit_amount debit_amount fw_addr lp_pos lp_pk st client_id
          expiration eps signature = Except.ok o →
        ("expiration", JVal.str expIso) ∈ o.payload
        ∧ ∀ f, o.signed = some f → f.expiration_epoch_seconds = expEpoch)) := by
  subst hIso
  subst hEpoch
  constructor
  · intro h
    refine ⟨?_, ?_, ?_⟩ <;>
      simp [create_order, create_withdrawal, create_fast_withdrawal, h]
  · intro h
    refine ⟨?_, ?_, ?_⟩
    · intro o ho
      rw [create_order, if_neg h] at ho
      by_cases hsig : truthyStr signature = true <;>
        by_cases hkey : truthyStr spk = true <;>
        simp [hsig, hkey] at ho <;>
        rw [← ho] <;>
        refine ⟨by simp, ?_⟩ <;>
        intro f hf <;> simp at hf <;> simp [← hf]
    · intro o ho
      rw [create_withdrawal, if_neg h] at ho
      by_cases hsig : truthyStr signature = true <;>
        by_cases hkey : truthyStr spk = true <;>
        simp [hsig, hkey] at ho <;>
        rw [← ho] <;>
        refine ⟨by simp, ?_⟩ <;>
        intro f hf <;> simp at hf <;> simp [← hf]
    · intro o ho
      rw [create_fast_withdrawal, if_neg h] at ho
      by_cases hsig : truthyStr signature = true <;>
        by_cases hkey : truthyStr spk = true <;>
        simp [hsig, hkey] at ho <;>
        rw [← ho] <;>
        refine ⟨by simp, ?_⟩ <;>
        intro f hf <;> simp at hf <;> simp [← hf]

/-- Witness for C3: both forms absent on `create_order` raises the
expiration `ValueError`; with only epoch 1000 supplied, the posted
payload of a signature-supplied `create_order` carries the derived ISO
form 1970-01-01T00:16:40.000Z. -/
theorem exactly_one_truthy_expiration_witness :
    create_order (fun _ => "stark-sig") (some "key") 1 "fresh-cid" 1
      "BTC-USD" "BUY" "LIMIT" false "1" "100" "0.01" none none none none
      none none none none none
      = Except.error (PyErr.valueError expirationErrMsg)
    ∧ ("expiration", JVal.str "1970-01-01T00:16:40.000Z") ∈
        [("market", JVal.str "BTC-USD"), ("side", JVal.str "BUY"),
         ("type", JVal.str "LIMIT"), ("timeInForce", JVal.str "GTT"),
         ("size", JVal.str "1"), ("price", JVal.str "100"),
         ("limitFee", JVal.str "0.01"),
         ("expiration", JVal.str "1970-01-01T00:16:40.000Z"),
         ("cancelId", JVal.jnull), ("triggerPrice", JVal.jnull),
         ("trailingPercent", JVal.jnull), ("postOnly", JVal.bool false),
         ("clientId", JVal.str "fresh-cid"),
         ("signature", JVal.str "given-sig"), ("reduceOnly", JVal.jnull)] := by
  constructor
  · exact ((exactly_one_truthy_expiration_or_error (fun _ => "stark-sig")
      (fun _ => "w") (fun _ => "c") (some "key") 1 "fresh-cid" 1 "BTC-USD"
      "BUY" "LIMIT" false "1" "100" "0.01" none none none none "amt" "USDC"
      "0xabc" "USDC" "10" "11" "0xabc" 2 "pk" none none none none none none
      "1970-01-01T00:00:00.000Z" 0 (by decide) (by decide)).1 (by decide)).1
  · have h := ((exactly_one_truthy_expiration_or_error (fun _ => "stark-sig")
      (fun _ => "w") (fun _ => "c") (some "key") 1 "fresh-cid" 1 "BTC-USD"
      "BUY" "LIMIT" false "1" "100" "0.01" none none none none "amt" "USDC"
      "0xabc" "USDC" "10" "11" "0xabc" 2 "pk" none none none (some 1000)
      (some "given-sig") none "1970-01-01T00:16:40.000Z" 1000 (by decide)
      (by decide)).2 (by decide)).1
    exact (h
      { payload := [("market", JVal.str "BTC-USD"), ("side", JVal.str "BUY"),
          ("type", JVal.str "LIMIT"), ("timeInForce", JVal.str "GTT"),
          ("size", JVal.str "1"), ("price", JVal.str "100"),
          ("limitFee", JVal.str "0.01"),
          ("expiration", JVal.str "1970-01-01T00:16:40.000Z"),
          ("cancelId", JVal.jnull), ("triggerPrice", JVal.jnull),
          ("trailingPercent", JVal.jnull), ("postOnly", JVal.bool false),
          ("clientId", JVal.str "fresh-cid"),
          ("signature", JVal.str "given-sig"), ("reduceOnly", JVal.jnull)]
        signed := none } rfl).1

/-- C9: presence of an expiration form is tested by truthiness, so for
all three actions supplying `expiration_epoch_seconds = 0` with no ISO
expiration is treated as supplying neither form and raises the
exactly-one-expiration error, for every choice of the remaining
arguments. -/
theorem zero_epoch_treated_as_absent
    (oSign : OrderToSign → String) (wSign : WithdrawalToSign → String)
    (cSign : ConditionalTransferToSign → String)
    (spk : Option String) (nid : Nat) (fresh : String) (pos : Int)
    (market side order_type : String) (post_only : Bool)
    (size price limit_fee : String) (tif cncl tp tr : Option String)
    (amount asset w_addr : String)
    (credit_asset credit_amount debit_amount fw_addr : String)
    (lp_pos : Int) (lp_pk : String) (st : Option String)
    (client_id : Option String) (signature : Option String)
    (reduce_only : Option Bool) :
    create_order oSign spk nid fresh pos market side order_type post_only
        size price limit_fee tif cncl tp tr client_id none (some 0)
        signature reduce_only
      = Except.error (PyErr.valueError expirationErrMsg)
    ∧ create_withdrawal wSign spk nid fresh pos amount asset w_addr
        client_id none (some 0) signature
      = Except.error (PyErr.valueError expirationErrMsg)
    ∧ create_fast_withdrawal cSign spk nid fresh pos credit_asset
        credit_amount debit_amount fw_addr lp_pos lp_pk st client_id none
        (some 0) signature
      = Except.error (PyErr.valueError expirationErrMsg) :=
  ⟨rfl, rfl, rfl⟩

/-- C4: the recipient address is lower-cased before inclusion in the
derived conditional-transfer fact, so for addresses agreeing up to
letter case `create_fast_withdrawal` produces identical outcomes —
identical canonical facts, hence identical signatures and payloads —
for every choice of the remaining parameters. -/
theorem fast_withdrawal_address_case_insensitive
    (cSign : ConditionalTransferToSign → String) (spk : Option String)
    (nid : Nat) (fresh : String) (pos : Int)
    (credit_asset credit_amount debit_amount : String) (a1 a2 : String)
    (lp_pos : Int) (lp_pk : String) (st : Option String)
    (client_id expiration : Option String) (eps : Option Int)
    (signature : Option String) (h : pyLower a1 = pyLower a2) :
    create_fast_withdrawal cSign spk nid fresh pos credit_asset
        credit_amount debit_amount a1 lp_pos lp_pk st client_id expiration
        eps signature
      = create_fast_withdrawal cSign spk nid fresh pos credit_asset
          credit_amount debit_amount a2 lp_pos lp_pk st client_id
          expiration eps signature
    ∧ (∀ o f, create_fast_withdrawal cSign spk nid fresh pos credit_asset
          credit_amount debit_amount a1 lp_pos lp_pk st client_id
          expiration eps signature = Except.ok o →
        o.signed = some f → f.fact.recipient = pyLower a1) := by
  constructor
  · unfold create_fast_withdrawal get_transfer_erc20_fact
    rw [h]
  · intro o f ho hf
    rw [create_fast_withdrawal] at ho
    by_cases hexp : truthyStr expiration = truthyInt eps
    · rw [if_pos hexp] at ho
      cases ho
    · rw [if_neg hexp] at ho
      by_cases hsig : truthyStr signature = true
      · simp [hsig] at ho
        rw [← ho] at hf
        simp at hf
      · by_cases hkey : truthyStr spk = true
        · simp [hsig, hkey] at ho
          rw [← ho] at hf
          simp at hf
          rw [← hf]
          rfl
        · simp [hsig, hkey] at ho

/-- Witness for C4: the same fast withdrawal with the recipient given as
"0xAbCd" and as "0xabcd" is one and the same outcome. -/
theorem fast_withdrawal_address_case_insensitive_witness :
    create_fast_withdrawal (fun _ => "ct-sig") (some "key") 1 "cid-1" 1
      "USDC" "10" "11" "0xAbCd" 2 "pk" none none none (some 1000) none
      = create_fast_withdrawal (fun _ => "ct-sig") (some "key") 1 "cid-1"
          1 "USDC" "10" "11" "0xabcd" 2 "pk" none none none (some 1000)
          none :=
  (fast_withdrawal_address_case_insensitive (fun _ => "ct-sig")
    (some "key") 1 "cid-1" 1 "USDC" "10" "11" "0xAbCd" "0xabcd" 2 "pk"
    none none none (some 1000) none (by decide)).1

/-- C5 (code bug): a 2xx response with an empty body makes the
dispatcher return `Response('{}', ...).data` — the two-character string
rendered here as "\x7b\x7d" — which is not the empty mapping the spec
requires, so the value is not uniformly indexable like a parsed body. -/
theorem empty_2xx_body_yields_string_not_mapping :
    (request (fun _ => none) true []
        (Except.ok { status := 200, content := "" })).result
      = Except.ok (PyData.pyStr "\x7b\x7d")
    ∧ PyData.pyStr "\x7b\x7d" ≠ PyData.pyDict [] :=
  ⟨rfl, by decide⟩

/-- Tests whether a dispatched call's outcome is the structured
`DydxApiError` (as opposed to a success, a JSON-decode failure on a 2xx
body, or a transport error). -/
def isApiError : Except PyErr PyData → Bool
  | Except.error (PyErr.dydxApiError _ _) => true
  | _ => false

/-- C6: for every dispatched request that got an HTTP response, a
`DydxApiError` carrying the response status and a best-effort-parsed
body is the outcome exactly when the status's decimal representation
does not start with 2; the error body falls back to the raw response
text when structured parsing fails, including on an empty body; and the
error is the call's result — propagated, never swallowed or retried. -/
theorem api_error_iff_non_2xx
    (parse : String → Option PyData) (cs : Bool) (dv : JBody)
    (resp : HttpResponse) (hparse : parse "" = none) :
    (isApiError (request parse cs dv (Except.ok resp)).result = true
      ↔ statusStartsWith2 resp.status = false)
    ∧ (statusStartsWith2 resp.status = false →
        (request parse cs dv (Except.ok resp)).result
          = Except.error (PyErr.dydxApiError resp.status
              (match parse resp.content with
               | some j => Sum.inl j
               | none => Sum.inr resp.content)))
    ∧ (statusStartsWith2 resp.status = false → resp.content = "" →
        (request parse cs dv (Except.ok resp)).result
          = Except.error (PyErr.dydxApiError resp.status
              (Sum.inr resp.content))) := by
  by_cases hs : statusStartsWith2 resp.status = true
  · have hsf : ¬ statusStartsWith2 resp.status = false := by simp [hs]
    by_cases hc : resp.content = ""
    · have hres : (request parse cs dv (Except.ok resp)).result
          = Except.ok (PyData.pyStr "\x7b\x7d") := by
        simp [request, hs, hc]
      refine ⟨?_, fun hfalse => absurd hfalse hsf,
        fun hfalse _ => absurd hfalse hsf⟩
      rw [hres]
      simp [isApiError, hs]
    · cases hp : parse resp.content with
      | some j =>
          have hres : (request parse cs dv (Except.ok resp)).result
              = Except.ok j := by
            simp [request, hs, hc, hp]
          refine ⟨?_, fun hfalse => absurd hfalse hsf,
            fun hfalse _ => absurd hfalse hsf⟩
          rw [hres]
          simp [isApiError, hs]
      | none =>
          have hres : (request parse cs dv (Except.ok resp)).result
              = Except.error (PyErr.jsonDecode resp.content) := by
            simp [request, hs, hc, hp]
          refine ⟨?_, fun hfalse => absurd hfalse hsf,
            fun hfalse _ => absurd hfalse hsf⟩
          rw [hres]
          simp [isApiError, hs]
  · have hs' : statusStartsWith2 resp.status = false := by
      simpa using hs
    have hres : (request parse cs dv (Except.ok resp)).result
        = Except.error (PyErr.dydxApiError resp.status
            (match parse resp.content with
             | some j => Sum.inl j
             | none => Sum.inr resp.content)) := by
      simp [request, response_to_error, hs']
    refine ⟨?_, fun _ => hres, fun _ hc => ?_⟩
    · rw [hres]
      simp [isApiError, hs']
    · rw [hres, hc, hparse]

/-- Witness for C6: a 404 with an empty body is the structured error,
with the body fallen back to the raw (empty) text. -/
theorem api_error_iff_non_2xx_witness :
    isApiError (request (fun _ => none) true []
        (Except.ok { status := 404, content := "" })).result = true
    ∧ (request (fun _ => none) true []
        (Except.ok { status := 404, content := "" })).result
      = Except.error (PyErr.dydxApiError 404 (Sum.inr "")) := by
  have h := api_error_iff_non_2xx (fun _ => none) true []
    { status := 404, content := "" } rfl
  exact ⟨h.1.mpr (by decide), h.2.2 (by decide) rfl⟩

/-- C7 (code bug): the dispatcher never closes a caller-supplied session
on any exit path; but for an internally created session the `finally`
block only evaluates `temp_session.close()` without awaiting it, so the
close coroutine is created and never run — the session is not closed
before the call returns or the error propagates. -/
theorem session_release_on_every_exit_path
    (parse : String → Option PyData) (cs : Bool) (dv : JBody)
    (sendResult : Except String HttpResponse) :
    (request parse cs dv sendResult).log.callerSessionClosed = false
    ∧ (request parse false dv sendResult).log
        = { tempCreated := true, closeCoroutineCreated := true,
            sessionClosed := false, callerSessionClosed := false } :=
  ⟨rfl, rfl⟩

/-- C8 counterexample: with no signature supplied and no stark private
key, `create_order` raises the bare `Exception` class — not a dedicated
`MissingSigningKey` type: its class is the generic `Exception`, and
every handler class that catches it also catches `ValueError` (the
precondition errors) and `DydxApiError` (the remote failures), so it is
not distinguishable by type from the other error kinds. -/
theorem missing_key_raises_generic_exception :
    create_order (fun _ => "stark-sig") none 1 "cid" 1 "BTC-USD" "BUY"
      "LIMIT" false "1" "100" "0.01" none none none none none
      (some "2022-12-21T21:30:20.200Z") none none none
      = Except.error (PyErr.exception
          ("No signature provided and client was not "
            ++ "initialized with stark_private_key"))
    ∧ (PyErr.exception
          ("No signature provided and client was not "
            ++ "initialized with stark_private_key")).cls
        = PyClass.exception
    ∧ (allPyClasses.all fun c => !(catches c PyClass.exception)
        || (catches c PyClass.valueError && catches c PyClass.dydxApiError))
      = true :=
  ⟨rfl, rfl, by decide⟩

/-- C8 (amended): with no signature argument and no stark private key
(by truthiness), each of the three actions fails before any network
dispatch and before invoking the external signing primitive — the error
is the same for every signer function — but with the generic `Exception`
class rather than a dedicated `MissingSigningKey` type, so no handler
class catches it without also catching the other error kinds. -/
theorem missing_key_fails_before_signing
    (spk : Option String) (nid : Nat) (fresh : String) (pos : Int)
    (market side order_type : String) (post_only : Bool)
    (size price limit_fee : String) (tif cncl tp tr : Option String)
    (amount asset w_addr : String)
    (credit_asset credit_amount debit_amount fw_addr : String)
    (lp_pos : Int) (lp_pk : String) (st : Option String)
    (client_id expiration : Option String) (eps : Option Int)
    (signature : Option String) (reduce_only : Option Bool)
    (hsig : truthyStr signature = false)
    (hkey : truthyStr spk = false)
    (hexp : truthyStr expiration ≠ truthyInt eps) :
    (∀ oSign, create_order oSign spk nid fresh pos market side order_type
        post_only size price limit_fee tif cncl tp tr client_id expiration
        eps signature reduce_only
      = Except.error (PyErr.exception
          ("No signature provided and client was not "
            ++ "initialized with stark_private_key")))
    ∧ (∀ wSign, create_withdrawal wSign spk nid fresh pos amount asset
        w_addr client_id expiration eps signature
      = Except.error (PyErr.exception
          ("No signature provided and client was not"
            ++ "initialized with stark_private_key")))
    ∧ (∀ cSign, create_fast_withdrawal cSign spk nid fresh pos
        credit_asset credit_amount debit_amount fw_addr lp_pos lp_pk st
        client_id expiration eps signature
      = Except.error (PyErr.exception
          ("No signature provided and client was not"
            ++ "initialized with stark_private_key")))
    ∧ (allPyClasses.all fun c => !(catches c PyClass.exception)
        || (catches c PyClass.valueError && catches c PyClass.dydxApiError))
      = true := by
  refine ⟨?_, ?_, ?_, by decide⟩ <;>
    intro s <;>
    simp [create_order, create_withdrawal, create_fast_withdrawal, hexp,
      hsig, hkey]

/-- Witness for C8 at a concrete withdrawal with neither signature nor
key. -/
theorem missing_key_fails_before_signing_witness :
    create_withdrawal (fun _ => "w-sig") none 1 "cid" 1 "10" "USDC"
      "0xabc" none (some "2022-12-21T21:30:20.200Z") none none
      = Except.error (PyErr.exception
          ("No signature provided and client was not"
            ++ "initialized with stark_private_key")) :=
  (missing_key_fails_before_signing none 1 "cid" 1 "BTC-USD" "BUY" "LIMIT"
    false "1" "100" "0.01" none none none none "10" "USDC" "0xabc" "USDC"
    "10" "11" "0xabc" 2 "pk" none none (some "2022-12-21T21:30:20.200Z")
    none none none (by decide) (by decide) (by decide)).2.1 (fun _ => "w-sig")

/-- C10: the HTTP body the dispatcher transmits is the JSON
serialization of the null-stripped data mapping; the signing string's
body segment is tied to the canonical message; and for every request
whose null-stripped body is empty the transmitted body is the
serialized empty mapping while the signed segment is the empty string —
the transmitted body differs from the body segment that was signed. -/
theorem transmitted_body_differs_from_signed_segment_when_empty
    (parse : String → Option PyData) (cs : Bool)
    (sendResult : Except String HttpResponse) (data : JBody)
    (p m ts : String) :
    (request parse cs data sendResult).transmitted
      = json_stringify (remove_nones data)
    ∧ signMessage p m ts (remove_nones data)
      = ts ++ m ++ p ++ signedBodySegment data
    ∧ (remove_nones data = [] →
        (request parse cs data sendResult).transmitted = "\x7b\x7d"
        ∧ signedBodySegment data = ""
        ∧ (request parse cs data sendResult).transmitted
            ≠ signedBodySegment data) := by
  refine ⟨rfl, rfl, fun h => ⟨?_, ?_, ?_⟩⟩
  · show json_stringify (remove_nones data) = _
    rw [h]
    rfl
  · rw [signedBodySegment, h]
    rfl
  · show json_stringify (remove_nones data) ≠ signedBodySegment data
    rw [h, signedBodySegment, h]
    decide

/-- Witness for C10: a body holding only a null-valued field transmits
the serialized empty mapping while its signed body segment is empty. -/
theorem transmitted_body_differs_witness :
    (request (fun _ => none) true [("a", JVal.jnull)]
        (Except.ok { status := 200, content := "x" })).transmitted
      = "\x7b\x7d"
    ∧ signedBodySegment [("a", JVal.jnull)] = "" := by
  have h := (transmitted_body_differs_from_signed_segment_when_empty
    (fun _ => none) true (Except.ok { status := 200, content := "x" })
    [("a", JVal.jnull)] "/v3/accounts" "GET" "ts").2.2 (by decide)
  exact ⟨h.1, h.2.1⟩

end Dydx
